import Mathlib

/-!
Verification of the GoREAL core: the validation-and-persistence contract
between the API layer (`goreal/api/routes.py`) and the spreadsheet-backed
store (`goreal/core/sheets_client.py`, `goreal/core/validators.py`).

The worksheet is embedded as a list of records in physical append order
(the list returned by `worksheet.get_all_records()`, header row excluded;
the `+2` offset the Python code adds when talking to the sheet API is the
constant translation between record index and absolute sheet row, so cell
updates are modelled directly on the record index).  All cell values are
strings, matching the `str(...)` coercion the source applies before every
comparison.
-/

namespace GoReal

/-- One row of the `PlayerLog` worksheet, in the column order the source
writes: Timestamp, PlayerID, PlayerName, ChallengeID, Status, SubmissionText. -/
structure LogRecord where
  timestamp : String
  playerID : String
  playerName : String
  challengeID : String
  status : String
  submissionText : String
deriving Repr, DecidableEq

/-- The `PlayerLog` worksheet body, in physical append order. -/
abbrev LogTable := List LogRecord

/-- The identity-pair comparison both `update_submission` and
`get_player_status` perform:
`str(record.get("PlayerID","")) == str(player_id) and str(record.get("ChallengeID","")) == str(challenge_id)`. -/
def recordMatches (player_id challenge_id : String) (r : LogRecord) : Bool :=
  r.playerID == player_id && r.challengeID == challenge_id

/-- The dictionary `get_player_status` builds from a matching record. -/
structure StatusInfo where
  status : String
  timestamp : String
  playerName : String
  submissionText : String
deriving Repr, DecidableEq

/-- Projection used by `get_player_status` when it finds a match. -/
def statusInfoOf (r : LogRecord) : StatusInfo :=
  { status := r.status
    timestamp := r.timestamp
    playerName := r.playerName
    submissionText := r.submissionText }

/-- `GoogleSheetsClient.get_player_status` (sheets_client.py:207-248), success
path: read all records, walk them in `reversed` order, return the first match
projected to `{status, timestamp, playerName, submissionText}`; `None` when the
table is empty or nothing matches. -/
def get_player_status (table : LogTable) (player_id challenge_id : String) :
    Option StatusInfo :=
  match table.reverse.find? (recordMatches player_id challenge_id) with
  | some r => some (statusInfoOf r)
  | none => none

/-- `GoogleSheetsClient.log_challenge` (sheets_client.py:102-150), success path:
append one row `[timestamp, player_id, player_name, challenge_id, status,
submission_text]` and return `True`.  The timestamp is generated from the local
clock, so it is a parameter here. -/
def log_challenge (table : LogTable) (timestamp player_id player_name
    challenge_id status submission_text : String) : Bool × LogTable :=
  (true, table ++ [{ timestamp := timestamp
                     playerID := player_id
                     playerName := player_name
                     challengeID := challenge_id
                     status := status
                     submissionText := submission_text }])

/-- The bottom-to-top scan of `update_submission` (sheets_client.py:181-189):
`for idx in range(len(records)-1, -1, -1)`, first index whose record matches. -/
def findLastMatchIdx (player_id challenge_id : String) : LogTable → Option Nat
  | [] => none
  | r :: rest =>
    match findLastMatchIdx player_id challenge_id rest with
    | some i => some (i + 1)
    | none => if recordMatches player_id challenge_id r then some 0 else none

/-- Effect of `worksheet.update_cell(row, col, value)` on the record at index
`idx`, for the two columns `update_submission` writes (5 = Status,
6 = SubmissionText). -/
def applyCell (col : Nat) (v : String) (r : LogRecord) : LogRecord :=
  if col = 5 then { r with status := v }
  else if col = 6 then { r with submissionText := v }
  else r

/-- In-range single-cell write: replace the record at `idx` by `applyCell` of
it.  `update_submission` only ever writes to the matched (hence in-range) row. -/
def update_cell : LogTable → Nat → Nat → String → LogTable
  | [], _, _, _ => []
  | r :: rest, 0, col, v => applyCell col v r :: rest
  | r :: rest, i + 1, col, v => r :: update_cell rest i col v

/-- `GoogleSheetsClient.update_submission` (sheets_client.py:152-205), success
path: read all records; return `False` on an empty table; find the most recent
matching row scanning bottom-up; return `False` when none matches; otherwise
write Status (column 5) then SubmissionText (column 6) of that row and return
`True`. -/
def update_submission (table : LogTable) (player_id challenge_id
    submission_text status : String) : Bool × LogTable :=
  if table.isEmpty then (false, table)
  else
    match findLastMatchIdx player_id challenge_id table with
    | none => (false, table)
    | some i =>
      (true, update_cell (update_cell table i 5 status) i 6 submission_text)

/-- `update_submission` with a fault injected after `okWrites` successful
`update_cell` calls: the `try` block performs the Status write (column 5)
first, then the SubmissionText write (column 6); an exception raised by either
is caught by the `except` handler, which returns `False` without undoing
writes already sent to the store. -/
def update_submission_faulty (table : LogTable) (player_id challenge_id
    submission_text status : String) (okWrites : Nat) : Bool × LogTable :=
  if table.isEmpty then (false, table)
  else
    match findLastMatchIdx player_id challenge_id table with
    | none => (false, table)
    | some i =>
      if okWrites = 0 then (false, table)
      else if okWrites = 1 then (false, update_cell table i 5 status)
      else (true, update_cell (update_cell table i 5 status) i 6 submission_text)

/-! ### Identifier validation (validators.py:38-49)

`ALLOWED_ID_PATTERN = re.compile(r'^[a-zA-Z0-9_-]+$')`, applied with
`.match`, i.e. anchored at the start; in Python `$` matches at the end of the
string and also just before a single newline at the end of the string. -/

/-- Membership in the character class `[a-zA-Z0-9_-]` (ASCII). -/
def isIdChar (c : Char) : Bool :=
  (('a' ≤ c && c ≤ 'z') || ('A' ≤ c && c ≤ 'Z') || ('0' ≤ c && c ≤ '9')
    || c = '_' || c = '-')

/-- Python semantics of `re.match(r'^[a-zA-Z0-9_-]+$', s)`: the whole string is
a non-empty run of class characters, except that a single trailing newline is
tolerated (Python `$` matches just before a newline at the end of the string). -/
def matchesIdPattern (s : String) : Bool :=
  let cs := s.data
  let core := if cs.getLast? = some '\n' then cs.dropLast else cs
  !core.isEmpty && core.all isIdChar

/-- `validate_id_format` (validators.py:38-49): empty check, length check
(`MAX_ID_LENGTH = 100`), then the anchored pattern match. -/
def validate_id_format (identifier : String) : Bool × String :=
  if identifier = "" then (false, "ID cannot be empty")
  else if identifier.length > 100 then
    (false, "ID too long (max 100 characters)")
  else if !matchesIdPattern identifier then
    (false,
      "ID contains invalid characters (only alphanumeric, underscore, and dash allowed)")
  else (true, "")

/-! ### Malicious-pattern matching (validators.py:14-20)

The five `MALICIOUS_PATTERNS` regexes are embedded as deterministic matchers:
each takes the suffix of the text starting at the current position and returns
the length of the (unique) match there, if any.  Determinism holds because in
`<script[^>]*>` the greedy class cannot consume `>`, in `on\w+=` the greedy
`\w+` cannot consume `=`, and `.*?</script>` is lazy; so no backtracking
choice remains.  `re.IGNORECASE` is modelled by ASCII lowercasing, and `.`
does not match a newline (no `DOTALL`).  All matchers are ASCII-faithful,
which covers every input the validators' claims mention. -/

/-- Case-insensitive literal match: consume the (lowercase) pattern `lit` at
the head of `cs`, returning the rest of the input. -/
def matchCI : List Char → List Char → Option (List Char)
  | [], cs => some cs
  | _ :: _, [] => none
  | p :: ps, c :: cs => if c.toLower = p then matchCI ps cs else none

/-- Match a case-insensitive literal, returning the number of characters
consumed (the literal's length). -/
def matchLiteralCI (lit : List Char) (cs : List Char) : Option Nat :=
  (matchCI lit cs).map fun _ => lit.length

/-- Consume `[^>]*>`: characters up to and including the first `>`.  Returns
the number of characters consumed. -/
def scanToGt : List Char → Option Nat
  | [] => none
  | c :: cs => if c = '>' then some 1 else (scanToGt cs).map (· + 1)

def scriptOpen : List Char := "<script".data

def scriptClose : List Char := "</script>".data

/-- Consume `.*?</script>` lazily: the closing tag is taken at the earliest
position reachable without crossing a newline (`.` excludes `\n`). -/
def scanLazyClose : List Char → Option Nat
  | [] => none
  | c :: rest =>
    if (matchCI scriptClose (c :: rest)).isSome then some scriptClose.length
    else if c = '\n' then none
    else (scanLazyClose rest).map (· + 1)

/-- Matcher for `<script[^>]*>.*?</script>` (case-insensitive). -/
def matchScript (cs : List Char) : Option Nat :=
  match matchCI scriptOpen cs with
  | none => none
  | some rest1 =>
    match scanToGt rest1 with
    | none => none
    | some k =>
      match scanLazyClose (rest1.drop k) with
      | none => none
      | some m => some (scriptOpen.length + k + m)

/-- Membership in `\w` (ASCII): `[a-zA-Z0-9_]`. -/
def isWordChar (c : Char) : Bool :=
  (('a' ≤ c && c ≤ 'z') || ('A' ≤ c && c ≤ 'Z') || ('0' ≤ c && c ≤ '9')
    || c = '_')

/-- Matcher for `on\w+=` (case-insensitive): `on`, a maximal non-empty run of
word characters, then `=`. -/
def matchOnHandler (cs : List Char) : Option Nat :=
  match cs with
  | c1 :: c2 :: rest =>
    if c1.toLower = 'o' && c2.toLower = 'n' then
      let run := rest.takeWhile isWordChar
      if run.isEmpty then none
      else
        match rest.drop run.length with
        | '=' :: _ => some (2 + run.length + 1)
        | _ => none
    else none
  | _ => none

def jsLit : List Char := "javascript:".data

def exprLit : List Char := "expression(".data

def evalLit : List Char := "eval(".data

/-- `re.search`: does the matcher succeed at some position of the text?  (The
patterns all need at least one character, so the empty suffix never matches.) -/
def searchAny (m : List Char → Option Nat) : List Char → Bool
  | [] => false
  | c :: rest => (m (c :: rest)).isSome || searchAny m rest

/-- The loop `for pattern in MALICIOUS_PATTERNS: if re.search(pattern, text,
re.IGNORECASE)` of `validate_text_field` (validators.py:61-63). -/
def containsMalicious (s : String) : Bool :=
  searchAny matchScript s.data || searchAny (matchLiteralCI jsLit) s.data ||
  searchAny matchOnHandler s.data || searchAny (matchLiteralCI exprLit) s.data ||
  searchAny (matchLiteralCI evalLit) s.data

/-- `re.sub(pattern, '', text)`: scan left to right, delete each leftmost
non-overlapping match and continue after it.  The fuel argument (initially the
text length) only makes the recursion structural; every matcher consumes at
least one character, so it never runs out. -/
def subAllFuel (m : List Char → Option Nat) : Nat → List Char → List Char
  | _, [] => []
  | 0, cs => cs
  | fuel + 1, c :: rest =>
    match m (c :: rest) with
    | some (n + 1) => subAllFuel m fuel (rest.drop n)
    | _ => c :: subAllFuel m fuel rest

def subAll (m : List Char → Option Nat) (cs : List Char) : List Char :=
  subAllFuel m cs.length cs

/-- The loop `for pattern in MALICIOUS_PATTERNS: text = re.sub(pattern, '',
text, flags=re.IGNORECASE)` of `sanitize_input` (validators.py:32-33), in the
declared pattern order. -/
def stripMalicious (cs : List Char) : List Char :=
  subAll (matchLiteralCI evalLit)
    (subAll (matchLiteralCI exprLit)
      (subAll matchOnHandler
        (subAll (matchLiteralCI jsLit)
          (subAll matchScript cs))))

/-- Per-character effect of Python `html.escape(text)` (quote=True).  The
sequential `str.replace` calls of its implementation amount to this
character-wise map because `&` is replaced first and no later replacement
introduces a character that an earlier pass rewrites at its position. -/
def escapeChar (c : Char) : List Char :=
  if c = '&' then "&amp;".data
  else if c = '<' then "&lt;".data
  else if c = '>' then "&gt;".data
  else if c = '"' then "&quot;".data
  else if c.val = 39 then "&#x27;".data
  else [c]

def escapeList : List Char → List Char
  | [] => []
  | c :: rest => escapeChar c ++ escapeList rest

/-- Python `str.isspace` characters in ASCII: the set `str.strip()` removes.
(The exotic Unicode whitespace Python also strips never appears in the
validators' inputs of interest.) -/
def isPySpace (c : Char) : Bool :=
  c = ' ' || c = '\t' || c = '\n' || c = '\r' || c = '\x0B' || c = '\x0C'

/-- Python `text.strip()`: drop leading and trailing whitespace. -/
def pyStrip (cs : List Char) : List Char :=
  ((cs.dropWhile isPySpace).reverse.dropWhile isPySpace).reverse

/-- `sanitize_input` (validators.py:23-35): HTML-escape, strip the malicious
patterns, then trim whitespace — in that order. -/
def sanitize_input (s : String) : String :=
  String.mk (pyStrip (stripMalicious (escapeList s.data)))

/-- `validate_text_field` (validators.py:52-65): empty check, length check,
then the malicious-pattern search. -/
def validate_text_field (text field_name : String) (max_length : Nat) :
    Bool × String :=
  if text = "" then (false, field_name ++ " cannot be empty")
  else if text.length > max_length then
    (false, field_name ++ " too long (max " ++ toString max_length ++ " characters)")
  else if containsMalicious text then
    (false, field_name ++ " contains potentially malicious content")
  else (true, "")

/-! ### Request payloads and the two dict validators

A payload field that is absent from the JSON dict is `none`.  A falsy `data`
argument (Python `None` or the empty dict) is modelled by the outer `none`.
Field values are the strings the source coerces them to with `str(...)`. -/

structure ChallengePayload where
  playerId : Option String
  playerName : Option String
  challengeId : Option String
deriving Repr, DecidableEq

structure SubmissionPayload where
  playerId : Option String
  challengeId : Option String
  submissionText : Option String
deriving Repr, DecidableEq

/-- `validate_challenge_data` (validators.py:68-108).  The Python loop walks
`required_fields = ['playerId', 'playerName', 'challengeId']` in order and for
each field checks membership, truthiness, then the per-field format; the loop
is unrolled here.  On success every field is replaced by its
`sanitize_input`. -/
def validate_challenge_data :
    Option ChallengePayload → Bool × String × Option ChallengePayload
  | none => (false, "No JSON data provided", none)
  | some d =>
    match d.playerId with
    | none => (false, "Missing required field: playerId", some d)
    | some v1 =>
      if v1 = "" then (false, "Empty value for field: playerId", some d)
      else if !(validate_id_format v1).1 then
        (false, "playerId: " ++ (validate_id_format v1).2, some d)
      else
        match d.playerName with
        | none => (false, "Missing required field: playerName", some d)
        | some v2 =>
          if v2 = "" then (false, "Empty value for field: playerName", some d)
          else if !(validate_text_field v2 "playerName" 100).1 then
            (false, (validate_text_field v2 "playerName" 100).2, some d)
          else
            match d.challengeId with
            | none => (false, "Missing required field: challengeId", some d)
            | some v3 =>
              if v3 = "" then (false, "Empty value for field: challengeId", some d)
              else if !(validate_id_format v3).1 then
                (false, "challengeId: " ++ (validate_id_format v3).2, some d)
              else
                (true, "",
                  some { playerId := some (sanitize_input v1)
                         playerName := some (sanitize_input v2)
                         challengeId := some (sanitize_input v3) })

/-- `validate_submission_data` (validators.py:111-151): same unrolled loop over
`['playerId', 'challengeId', 'submissionText']`; `submissionText` goes through
`validate_text_field` with `max_length = 5000` and is never given the
identifier-pattern check. -/
def validate_submission_data :
    Option SubmissionPayload → Bool × String × Option SubmissionPayload
  | none => (false, "No JSON data provided", none)
  | some d =>
    match d.playerId with
    | none => (false, "Missing required field: playerId", some d)
    | some v1 =>
      if v1 = "" then (false, "Empty value for field: playerId", some d)
      else if !(validate_id_format v1).1 then
        (false, "playerId: " ++ (validate_id_format v1).2, some d)
      else
        match d.challengeId with
        | none => (false, "Missing required field: challengeId", some d)
        | some v2 =>
          if v2 = "" then (false, "Empty value for field: challengeId", some d)
          else if !(validate_id_format v2).1 then
            (false, "challengeId: " ++ (validate_id_format v2).2, some d)
          else
            match d.submissionText with
            | none => (false, "Missing required field: submissionText", some d)
            | some v3 =>
              if v3 = "" then (false, "Empty value for field: submissionText", some d)
              else if !(validate_text_field v3 "submissionText" 5000).1 then
                (false, (validate_text_field v3 "submissionText" 5000).2, some d)
              else
                (true, "",
                  some { playerId := some (sanitize_input v1)
                         challengeId := some (sanitize_input v2)
                         submissionText := some (sanitize_input v3) })

/-! ### The submit-proof handler (routes.py:78-125) -/

structure HttpResponse where
  code : Nat
  status : String
  message : String
deriving Repr, DecidableEq

/-- `submit_challenge` (routes.py:78-125): validate (mutating the payload in
place), extract the sanitized fields, call `update_submission` with the
default status `"Submitted"`, and map its boolean to 200 or 404.  The
`(true, _, _)` branch with a missing field models the generic `except`
handler (unreachable after successful validation). -/
def submit_challenge (table : LogTable) (data : Option SubmissionPayload) :
    HttpResponse × LogTable :=
  match validate_submission_data data with
  | (false, msg, _) => ({ code := 400, status := "error", message := msg }, table)
  | (true, _, some d) =>
    match d.playerId, d.challengeId, d.submissionText with
    | some pid, some cid, some text =>
      let res := update_submission table pid cid text "Submitted"
      if res.1 then
        ({ code := 200, status := "success", message := "Submission received." },
          res.2)
      else
        ({ code := 404, status := "error",
           message := "No matching challenge log found for playerId " ++ pid ++
             " and challengeId " ++ cid }, res.2)
    | _, _, _ =>
      ({ code := 500, status := "error", message := "Internal server error" },
        table)
  | (true, _, none) =>
    ({ code := 500, status := "error", message := "Internal server error" }, table)

/-! ## Helper lemmas -/

theorem find?_eq_head?_filter {α : Type} (p : α → Bool) :
    ∀ l : List α, l.find? p = (l.filter p).head? := by
  intro l
  induction l with
  | nil => rfl
  | cons a l ih =>
    by_cases h : p a = true
    · rw [List.find?_cons_of_pos _ h, List.filter_cons_of_pos h]
      rfl
    · rw [List.find?_cons_of_neg _ (by simp [h]),
        List.filter_cons_of_neg (by simp [h]), ih]

theorem getLast?_filter_eq_find?_reverse {α : Type} (p : α → Bool) (l : List α) :
    (l.filter p).getLast? = l.reverse.find? p := by
  rw [← List.head?_reverse (l.filter p), ← List.filter_reverse,
    ← find?_eq_head?_filter]

theorem get_player_status_eq_find (table : LogTable) (pid cid : String) :
    get_player_status table pid cid =
      (table.reverse.find? (recordMatches pid cid)).map statusInfoOf := by
  unfold get_player_status
  cases table.reverse.find? (recordMatches pid cid) <;> rfl

/-! ## Claims -/

/-- C1: for every log table and identity pair, `get_player_status` returns
`none` exactly when no row matches the pair, and otherwise the
`{status, timestamp, playerName, submissionText}` of the matching row nearest
the end of the table in physical append order — the last element of the
filtered table, a formulation independent of the timestamp values stored in
the rows. -/
theorem get_player_status_spec (table : LogTable) (player_id challenge_id : String) :
    (get_player_status table player_id challenge_id = none ↔
      ∀ r ∈ table, recordMatches player_id challenge_id r = false) ∧
    get_player_status table player_id challenge_id =
      ((table.filter (recordMatches player_id challenge_id)).getLast?).map
        statusInfoOf := by
  constructor
  · rw [get_player_status_eq_find, Option.map_eq_none', List.find?_eq_none]
    constructor
    · intro h r hr
      have := h r (List.mem_reverse.mpr hr)
      simpa using this
    · intro h r hr
      simp [h r (List.mem_reverse.mp hr)]
  · rw [get_player_status_eq_find, getLast?_filter_eq_find?_reverse]

/-- Witness for C1: a table whose only row does not match the queried pair
yields the not-found marker. -/
theorem get_player_status_spec_witness :
    get_player_status ([⟨"t1", "p9", "n", "c9", "Done", ""⟩] : LogTable)
      "p1" "c1" = none :=
  (get_player_status_spec ([⟨"t1", "p9", "n", "c9", "Done", ""⟩] : LogTable)
    "p1" "c1").1.mpr (by decide)

/-- C5: `log_challenge` is never idempotent: two successive successful calls
with identical arguments append exactly one fresh row each, so the table grows
by two rows and every pre-existing row is left untouched (the old table is the
unchanged prefix). -/
theorem log_challenge_never_idempotent (table : LogTable)
    (ts₁ ts₂ pid pname cid st tx : String) :
    (log_challenge table ts₁ pid pname cid st tx).1 = true ∧
    (log_challenge (log_challenge table ts₁ pid pname cid st tx).2
        ts₂ pid pname cid st tx).1 = true ∧
    (log_challenge (log_challenge table ts₁ pid pname cid st tx).2
        ts₂ pid pname cid st tx).2 =
      table ++ [⟨ts₁, pid, pname, cid, st, tx⟩, ⟨ts₂, pid, pname, cid, st, tx⟩] ∧
    (log_challenge (log_challenge table ts₁ pid pname cid st tx).2
        ts₂ pid pname cid st tx).2.length = table.length + 2 ∧
    (log_challenge (log_challenge table ts₁ pid pname cid st tx).2
        ts₂ pid pname cid st tx).2.take table.length = table := by
  refine ⟨rfl, rfl, ?_, ?_, ?_⟩
  · simp [log_challenge]
  · simp [log_challenge]
  · simp only [log_challenge, List.append_assoc]
    exact List.take_left table _

/-- C7 counterexample: `validate_id_format` accepts `"abc\n"` even though the
newline is outside the `[A-Za-z0-9_-]` charset — Python `$` also matches just
before a trailing newline — so "accepts iff every character is in the charset"
is false. -/
theorem validate_id_format_charset_counterexample :
    (validate_id_format "abc\n").1 = true ∧ isIdChar '\n' = false := by
  constructor <;> decide

theorem isEmpty_false_of_ne_nil {α : Type} {l : List α} (h : l ≠ []) :
    l.isEmpty = false := by
  cases l with
  | nil => exact absurd rfl h
  | cons a l => rfl

theorem ne_nil_of_isEmpty_false {α : Type} {l : List α} (h : l.isEmpty = false) :
    l ≠ [] := by
  cases l with
  | nil => simp at h
  | cons a l => simp

theorem matchesIdPattern_iff (s : String) :
    matchesIdPattern s = true ↔
      ((s.data ≠ [] ∧ s.data.all isIdChar = true) ∨
        ∃ t, s.data = t ++ ['\n'] ∧ t ≠ [] ∧ t.all isIdChar = true) := by
  have hdef : matchesIdPattern s =
      (!(if s.data.getLast? = some '\n' then s.data.dropLast else s.data).isEmpty &&
        (if s.data.getLast? = some '\n' then s.data.dropLast else s.data).all
          isIdChar) := rfl
  rw [hdef]
  by_cases hnl : s.data.getLast? = some '\n'
  · rw [if_pos hnl]
    have hsplit : s.data.dropLast ++ ['\n'] = s.data :=
      List.dropLast_append_getLast? _ hnl
    constructor
    · intro h
      obtain ⟨ha, hb⟩ := Bool.and_eq_true_iff.mp h
      have hne2 : s.data.dropLast ≠ [] := by
        intro h0
        rw [h0] at ha
        simp at ha
      exact Or.inr ⟨s.data.dropLast, hsplit.symm, hne2, hb⟩
    · rintro (⟨hne', hall⟩ | ⟨t, ht, htne, htall⟩)
      · exfalso
        have hmem : '\n' ∈ s.data := by
          have h2 : s.data.getLast hne' = '\n' :=
            Option.some.inj ((List.getLast?_eq_getLast s.data hne').symm.trans hnl)
          rw [← h2]
          exact List.getLast_mem hne'
        have := List.all_eq_true.mp hall '\n' hmem
        simp [isIdChar] at this
      · have hteq : t = s.data.dropLast := by
          have h2 : t ++ ['\n'] = s.data.dropLast ++ ['\n'] := by
            rw [← ht]
            exact hsplit.symm
          exact List.append_inj_left' h2 rfl
        subst hteq
        rw [isEmpty_false_of_ne_nil htne, htall]
        rfl
  · rw [if_neg hnl]
    constructor
    · intro h
      obtain ⟨ha, hb⟩ := Bool.and_eq_true_iff.mp h
      exact Or.inl ⟨ne_nil_of_isEmpty_false (by simpa using ha), hb⟩
    · rintro (⟨hne', hall⟩ | ⟨t, ht, _, _⟩)
      · rw [isEmpty_false_of_ne_nil hne', hall]
        rfl
      · refine absurd ?_ hnl
        rw [ht]
        exact List.getLast?_concat t

/-- C7 amended: `validate_id_format` accepts an identifier iff its length is at
most 100 and it is a non-empty run of `[A-Za-z0-9_-]` characters, optionally
followed by one trailing newline (the Python `$` quirk); in particular
`"bad id!"` is rejected (space and `!` outside the charset) and a string of
101 `a` characters is rejected (length). -/
theorem validate_id_format_spec :
    (∀ s : String,
      (validate_id_format s).1 = true ↔
        (s.length ≤ 100 ∧
          ((s.data ≠ [] ∧ s.data.all isIdChar = true) ∨
            ∃ t, s.data = t ++ ['\n'] ∧ t ≠ [] ∧ t.all isIdChar = true))) ∧
    (validate_id_format "bad id!").1 = false ∧
    (validate_id_format (String.mk (List.replicate 101 'a'))).1 = false := by
  refine ⟨?_, by decide, by decide⟩
  intro s
  unfold validate_id_format
  by_cases hs : s = ""
  · subst hs
    rw [if_pos rfl]
    constructor
    · intro h
      simp at h
    · rintro ⟨-, (⟨hne, -⟩ | ⟨t, ht, htne, -⟩)⟩
      · exact absurd rfl hne
      · have h0 : ("" : String).data = [] := rfl
        rw [h0] at ht
        exact absurd ht.symm (by simp)
  · rw [if_neg hs]
    by_cases hl : s.length > 100
    · rw [if_pos hl]
      constructor
      · intro h
        simp at h
      · rintro ⟨h100, -⟩
        omega
    · rw [if_neg hl]
      cases hm : matchesIdPattern s with
      | true =>
        rw [if_neg (by simp [hm])]
        constructor
        · intro _
          exact ⟨Nat.le_of_not_lt hl, (matchesIdPattern_iff s).mp hm⟩
        · intro _
          rfl
      | false =>
        rw [if_pos (by simp [hm])]
        constructor
        · intro h
          simp at h
        · rintro ⟨-, hdis⟩
          have h2 := (matchesIdPattern_iff s).mpr hdis
          rw [hm] at h2
          cases h2

/-- Witness for C7: the amended characterisation applied to `"abc\n"`. -/
theorem validate_id_format_spec_witness :
    (validate_id_format "abc\n").1 = true :=
  (validate_id_format_spec.1 "abc\n").mpr
    ⟨by decide, Or.inr ⟨['a', 'b', 'c'], by decide, by decide, by decide⟩⟩

/-- C3 counterexample: on a payload whose `playerId` is present but malformed
and whose `challengeId` is missing, `validate_challenge_data` reports the
`playerId` format error, not the missing-field error for `challengeId` that
the claimed check order (all missing-field checks first) would predict. -/
theorem validate_challenge_data_order_counterexample :
    (validate_challenge_data
        (some (⟨some "bad id!", some "x", none⟩ : ChallengePayload))).2.1 =
      "playerId: ID contains invalid characters (only alphanumeric, underscore, and dash allowed)" ∧
    (validate_challenge_data
        (some (⟨some "bad id!", some "x", none⟩ : ChallengePayload))).2.1 ≠
      "Missing required field: challengeId" := by
  constructor <;> decide

/-- C3 amended: the checks are interleaved per field in declared order
(`playerId`, `playerName`, `challengeId`): for each field the missing-field
check, the empty-value check and the per-field format check all run before the
next field is examined.  One conjunct per field: a present, non-empty,
malformed `playerId` yields the `playerId` format error regardless of the
later fields (in particular even when one is missing); with a valid
`playerId`, a present, non-empty `playerName` failing the text-field check
yields that error regardless of `challengeId` (in particular even when it is
missing); with both earlier fields valid, a present, non-empty, malformed
`challengeId` yields the `challengeId` format error. -/
theorem validate_challenge_data_field_order :
    (∀ (d : ChallengePayload) (v : String),
      d.playerId = some v → v ≠ "" → (validate_id_format v).1 = false →
      validate_challenge_data (some d) =
        (false, "playerId: " ++ (validate_id_format v).2, some d)) ∧
    (∀ (d : ChallengePayload) (p n : String),
      d.playerId = some p → p ≠ "" → (validate_id_format p).1 = true →
      d.playerName = some n → n ≠ "" →
      (validate_text_field n "playerName" 100).1 = false →
      validate_challenge_data (some d) =
        (false, (validate_text_field n "playerName" 100).2, some d)) ∧
    (∀ (d : ChallengePayload) (p n c : String),
      d.playerId = some p → p ≠ "" → (validate_id_format p).1 = true →
      d.playerName = some n → n ≠ "" →
      (validate_text_field n "playerName" 100).1 = true →
      d.challengeId = some c → c ≠ "" → (validate_id_format c).1 = false →
      validate_challenge_data (some d) =
        (false, "challengeId: " ++ (validate_id_format c).2, some d)) := by
  refine ⟨?_, ?_, ?_⟩
  · intro d v hv hne hbad
    obtain ⟨dp, dn, dc⟩ := d
    simp only at hv
    subst hv
    simp [validate_challenge_data, hne, hbad]
  · intro d p n hp hpne hpok hn hnne hnbad
    obtain ⟨dp, dn, dc⟩ := d
    simp only at hp hn
    subst hp
    subst hn
    simp [validate_challenge_data, hpne, hpok, hnne, hnbad]
  · intro d p n c hp hpne hpok hn hnne hnok hc hcne hcbad
    obtain ⟨dp, dn, dc⟩ := d
    simp only at hp hn hc
    subst hp
    subst hn
    subst hc
    simp [validate_challenge_data, hpne, hpok, hnne, hnok, hcne, hcbad]

/-- Witness for C3: a malformed `playerId` with a missing `challengeId` gives
the `playerId` format error, and — the other interleaving direction — a valid
`playerId` with a `playerName` failing the malicious-content check and a
missing `challengeId` gives the `playerName` error, not the missing-field
error for `challengeId`. -/
theorem validate_challenge_data_field_order_witness :
    validate_challenge_data
        (some (⟨some "bad id!", some "x", none⟩ : ChallengePayload)) =
      (false, "playerId: " ++ (validate_id_format "bad id!").2,
        some (⟨some "bad id!", some "x", none⟩ : ChallengePayload)) ∧
    validate_challenge_data
        (some (⟨some "p1", some "x<script>a</script>", none⟩ :
          ChallengePayload)) =
      (false, (validate_text_field "x<script>a</script>" "playerName" 100).2,
        some (⟨some "p1", some "x<script>a</script>", none⟩ :
          ChallengePayload)) :=
  ⟨validate_challenge_data_field_order.1 _ "bad id!" rfl (by decide) (by decide),
    validate_challenge_data_field_order.2.1 _ "p1" "x<script>a</script>" rfl
      (by decide) (by decide) rfl (by decide) (by decide)⟩

/-! ## Store-update lemmas -/

theorem findLastMatchIdx_eq_none_iff (pid cid : String) (l : LogTable) :
    findLastMatchIdx pid cid l = none ↔
      ∀ r ∈ l, recordMatches pid cid r = false := by
  induction l with
  | nil => simp [findLastMatchIdx]
  | cons a l ih =>
    unfold findLastMatchIdx
    cases h : findLastMatchIdx pid cid l with
    | some i =>
      dsimp only
      constructor
      · intro h2
        exact absurd h2 (by simp)
      · intro h2
        have h3 : findLastMatchIdx pid cid l = none :=
          ih.mpr fun r hr => h2 r (List.mem_cons_of_mem a hr)
        rw [h3] at h
        cases h
    | none =>
      dsimp only
      cases hm : recordMatches pid cid a with
      | true =>
        rw [if_pos (show (true = true) from rfl)]
        constructor
        · intro h2
          exact absurd h2 (by simp)
        · intro h2
          rw [h2 a (List.mem_cons_self a l)] at hm
          cases hm
      | false =>
        rw [if_neg (show ¬(false = true) by simp)]
        constructor
        · intro _ r hr
          rcases List.mem_cons.mp hr with rfl | hr'
          · exact hm
          · exact ih.mp h r hr'
        · intro _
          rfl

theorem findLastMatchIdx_concat (pid cid : String) (l : LogTable) (r : LogRecord) :
    findLastMatchIdx pid cid (l ++ [r]) =
      if recordMatches pid cid r then some l.length
      else findLastMatchIdx pid cid l := by
  induction l with
  | nil =>
    cases hm : recordMatches pid cid r with
    | true => simp [findLastMatchIdx, hm]
    | false => simp [findLastMatchIdx, hm]
  | cons a l ih =>
    rw [List.cons_append]
    unfold findLastMatchIdx
    rw [ih]
    cases hm : recordMatches pid cid r with
    | true => rfl
    | false => rfl

theorem findLastMatchIdx_lt_length (pid cid : String) :
    ∀ (l : LogTable) (i : Nat), findLastMatchIdx pid cid l = some i →
      i < l.length := by
  intro l
  induction l with
  | nil =>
    intro i h
    simp [findLastMatchIdx] at h
  | cons a l ih =>
    intro i h
    unfold findLastMatchIdx at h
    cases h2 : findLastMatchIdx pid cid l with
    | some j =>
      rw [h2] at h
      dsimp only at h
      have hj := ih j h2
      have : j + 1 = i := Option.some.inj h
      simp only [List.length_cons]
      omega
    | none =>
      rw [h2] at h
      dsimp only at h
      by_cases hm : recordMatches pid cid a = true
      · rw [if_pos hm] at h
        have : (0 : Nat) = i := Option.some.inj h
        simp only [List.length_cons]
        omega
      · rw [if_neg hm] at h
        cases h

theorem update_cell_length : ∀ (l : LogTable) (i col : Nat) (v : String),
    (update_cell l i col v).length = l.length := by
  intro l
  induction l with
  | nil => intro i col v; rfl
  | cons a l ih =>
    intro i col v
    cases i with
    | zero => rfl
    | succ i => simp [update_cell, ih]

theorem update_cell_append_left : ∀ (l l₂ : LogTable) (i col : Nat) (v : String),
    i < l.length →
    update_cell (l ++ l₂) i col v = update_cell l i col v ++ l₂ := by
  intro l
  induction l with
  | nil =>
    intro l₂ i col v h
    simp at h
  | cons a l ih =>
    intro l₂ i col v h
    cases i with
    | zero => simp [update_cell]
    | succ i =>
      show a :: update_cell (l ++ l₂) i col v =
        a :: (update_cell l i col v ++ l₂)
      rw [ih l₂ i col v (Nat.lt_of_succ_lt_succ h)]

theorem update_cell_concat_self (l : LogTable) (r : LogRecord) (col : Nat)
    (v : String) :
    update_cell (l ++ [r]) l.length col v = l ++ [applyCell col v r] := by
  induction l with
  | nil => rfl
  | cons a l ih =>
    show a :: update_cell (l ++ [r]) l.length col v =
      a :: (l ++ [applyCell col v r])
    rw [ih]

theorem recordMatches_applyCell (pid cid : String) (col : Nat) (v : String)
    (r : LogRecord) :
    recordMatches pid cid (applyCell col v r) = recordMatches pid cid r := by
  unfold applyCell
  split
  · rfl
  · split <;> rfl

theorem get_player_status_concat (table : LogTable) (r : LogRecord)
    (pid cid : String) :
    get_player_status (table ++ [r]) pid cid =
      if recordMatches pid cid r then some (statusInfoOf r)
      else get_player_status table pid cid := by
  rw [get_player_status_eq_find, get_player_status_eq_find, List.reverse_append]
  simp only [List.reverse_cons, List.reverse_nil, List.nil_append,
    List.singleton_append]
  cases hm : recordMatches pid cid r with
  | true =>
    rw [List.find?_cons_of_pos _ hm, if_pos rfl]
    rfl
  | false =>
    rw [List.find?_cons_of_neg _ (by simp [hm]), if_neg (by simp)]

theorem update_then_get_aux (pid cid st tx : String) :
    ∀ (l : LogTable) (i : Nat), findLastMatchIdx pid cid l = some i →
      ∃ r, l[i]? = some r ∧
        get_player_status (update_cell (update_cell l i 5 st) i 6 tx) pid cid =
          some ⟨st, r.timestamp, r.playerName, tx⟩ := by
  intro l
  induction l using List.reverseRecOn with
  | nil =>
    intro i h
    simp [findLastMatchIdx] at h
  | append_singleton l r ih =>
    intro i h
    rw [findLastMatchIdx_concat] at h
    cases hm : recordMatches pid cid r with
    | true =>
      rw [if_pos hm] at h
      obtain rfl : l.length = i := Option.some.inj h
      refine ⟨r, by simp, ?_⟩
      rw [update_cell_concat_self, update_cell_concat_self,
        get_player_status_concat]
      have hm2 : recordMatches pid cid (applyCell 6 tx (applyCell 5 st r)) =
          true := by
        rw [recordMatches_applyCell, recordMatches_applyCell]
        exact hm
      rw [if_pos hm2]
      rfl
    | false =>
      rw [if_neg (by simp [hm])] at h
      have hi := findLastMatchIdx_lt_length pid cid l i h
      obtain ⟨r0, hr0, hget⟩ := ih i h
      refine ⟨r0, ?_, ?_⟩
      · rw [List.getElem?_append_left hi]
        exact hr0
      · rw [update_cell_append_left l [r] i 5 st hi,
          update_cell_append_left _ [r] i 6 tx
            (by rw [update_cell_length]; exact hi),
          get_player_status_concat, if_neg (by simp [hm])]
        exact hget

theorem update_submission_false_iff (table : LogTable) (pid cid tx st : String) :
    (update_submission table pid cid tx st).1 = false ↔
      ∀ r ∈ table, recordMatches pid cid r = false := by
  by_cases hnil : table = []
  · subst hnil
    simp [update_submission]
  · unfold update_submission
    rw [if_neg (by simp [isEmpty_false_of_ne_nil hnil])]
    cases h : findLastMatchIdx pid cid table with
    | none =>
      dsimp only
      constructor
      · intro _
        exact (findLastMatchIdx_eq_none_iff pid cid table).mp h
      · intro _
        rfl
    | some i =>
      dsimp only
      constructor
      · intro h2
        exact absurd h2 (by simp)
      · intro h2
        have h3 := (findLastMatchIdx_eq_none_iff pid cid table).mpr h2
        rw [h] at h3
        cases h3

theorem update_submission_snd_of_false (table : LogTable)
    (pid cid tx st : String)
    (h : (update_submission table pid cid tx st).1 = false) :
    (update_submission table pid cid tx st).2 = table := by
  by_cases hnil : table = []
  · subst hnil
    rfl
  · unfold update_submission at h ⊢
    rw [if_neg (by simp [isEmpty_false_of_ne_nil hnil])] at h ⊢
    cases h2 : findLastMatchIdx pid cid table with
    | none => rfl
    | some i =>
      rw [h2] at h
      exact absurd h (by simp)

/-- C2: when at least one row matches the identity pair, `update_submission`
succeeds and an immediately following `get_player_status` on the same pair
(single-threaded, no interleaved writes) returns exactly the just-written
status and submission text, because both operations select the same
most-recent matching row. -/
theorem update_then_get_player_status (table : LogTable)
    (pid cid tx st : String)
    (h : ∃ r ∈ table, recordMatches pid cid r = true) :
    (update_submission table pid cid tx st).1 = true ∧
    ∃ info,
      get_player_status (update_submission table pid cid tx st).2 pid cid =
        some info ∧ info.status = st ∧ info.submissionText = tx := by
  obtain ⟨r0, hr0, hm0⟩ := h
  have hne : table.isEmpty = false :=
    isEmpty_false_of_ne_nil (by rintro rfl; cases hr0)
  obtain ⟨i, hi⟩ : ∃ i, findLastMatchIdx pid cid table = some i := by
    cases h2 : findLastMatchIdx pid cid table with
    | some i => exact ⟨i, rfl⟩
    | none =>
      have h3 := (findLastMatchIdx_eq_none_iff pid cid table).mp h2 r0 hr0
      rw [hm0] at h3
      cases h3
  obtain ⟨r1, hr1, hget⟩ := update_then_get_aux pid cid st tx table i hi
  unfold update_submission
  rw [if_neg (by simp [hne]), hi]
  dsimp only
  exact ⟨rfl, ⟨st, r1.timestamp, r1.playerName, tx⟩, hget, rfl, rfl⟩

/-- Witness for C2 on a one-row table whose row matches the pair. -/
theorem update_then_get_player_status_witness :
    (update_submission ([⟨"t1", "p1", "n", "c1", "Received", ""⟩] : LogTable)
      "p1" "c1" "done" "Submitted").1 = true ∧
    get_player_status
        (update_submission ([⟨"t1", "p1", "n", "c1", "Received", ""⟩] : LogTable)
          "p1" "c1" "done" "Submitted").2 "p1" "c1" =
      some ⟨"Submitted", "t1", "n", "done"⟩ :=
  ⟨(update_then_get_player_status
      ([⟨"t1", "p1", "n", "c1", "Received", ""⟩] : LogTable) "p1" "c1" "done"
      "Submitted" ⟨⟨"t1", "p1", "n", "c1", "Received", ""⟩, by decide, by decide⟩).1,
    by decide⟩

theorem update_cell_getElem_self : ∀ (l : LogTable) (i col : Nat) (v : String),
    (update_cell l i col v)[i]? = (l[i]?).map (applyCell col v) := by
  intro l
  induction l with
  | nil => intro i col v; simp [update_cell]
  | cons a l ih =>
    intro i col v
    cases i with
    | zero => simp [update_cell]
    | succ i =>
      simp only [update_cell, List.getElem?_cons_succ]
      exact ih i col v

theorem update_cell_getElem_ne : ∀ (l : LogTable) (i j col : Nat) (v : String),
    j ≠ i → (update_cell l i col v)[j]? = l[j]? := by
  intro l
  induction l with
  | nil => intro i j col v _; simp [update_cell]
  | cons a l ih =>
    intro i j col v hne
    cases i with
    | zero =>
      cases j with
      | zero => exact absurd rfl hne
      | succ j => simp [update_cell]
    | succ i =>
      cases j with
      | zero => simp [update_cell]
      | succ j =>
        simp only [update_cell, List.getElem?_cons_succ]
        exact ih i j col v (fun h => hne (by rw [h]))

/-- C10: `update_submission` writes the matched row with two sequential
single-cell writes — Status (column 5) first, then SubmissionText
(column 6).  If a fault occurs after the first write and before the second,
the call returns `false` while the matched row's Status already holds the new
value and its SubmissionText still holds the old one (no rollback); every
other row is untouched. -/
theorem update_submission_faulty_halfway (table : LogTable)
    (pid cid tx st : String) (i : Nat)
    (h : findLastMatchIdx pid cid table = some i) :
    (update_submission_faulty table pid cid tx st 1).1 = false ∧
    (∀ j, j ≠ i →
      (update_submission_faulty table pid cid tx st 1).2[j]? = table[j]?) ∧
    ∃ r, table[i]? = some r ∧
      (update_submission_faulty table pid cid tx st 1).2[i]? =
        some { r with status := st } := by
  have hne : table.isEmpty = false := by
    cases table with
    | nil => simp [findLastMatchIdx] at h
    | cons a l => rfl
  unfold update_submission_faulty
  rw [if_neg (by simp [hne]), h]
  dsimp only
  rw [if_neg (by decide : ¬((1 : Nat) = 0)), if_pos rfl]
  refine ⟨rfl, ?_, ?_⟩
  · intro j hj
    exact update_cell_getElem_ne table i j 5 st hj
  · have hi := findLastMatchIdx_lt_length pid cid table i h
    refine ⟨table[i], List.getElem?_eq_getElem hi, ?_⟩
    rw [update_cell_getElem_self, List.getElem?_eq_getElem hi]
    rfl

/-- Witness for C10: a one-row table; the faulty run flips Status to the new
value, keeps the old SubmissionText, and reports failure. -/
theorem update_submission_faulty_halfway_witness :
    (update_submission_faulty
      ([⟨"t0", "p1", "n", "c1", "Received", "old"⟩] : LogTable)
      "p1" "c1" "new" "Submitted" 1).1 = false ∧
    (update_submission_faulty
      ([⟨"t0", "p1", "n", "c1", "Received", "old"⟩] : LogTable)
      "p1" "c1" "new" "Submitted" 1).2 =
      [⟨"t0", "p1", "n", "c1", "Submitted", "old"⟩] :=
  ⟨(update_submission_faulty_halfway
      ([⟨"t0", "p1", "n", "c1", "Received", "old"⟩] : LogTable)
      "p1" "c1" "new" "Submitted" 0 (by decide)).1,
    by decide⟩

/-- C6: `update_submission` returns `false` exactly when no row of the table
matches the identity pair, and then leaves the table unchanged; the
submit-proof handler maps this `false` to an HTTP 404 whose message starts
with "No matching challenge log found", so submitting proof for a pair with
zero prior log rows returns 404.  A store-side fault also yields `false` even
when a matching row exists, so the boolean alone cannot distinguish not-found
from store-unreachable. -/
theorem update_submission_not_found_spec :
    (∀ (table : LogTable) (pid cid tx st : String),
      ((update_submission table pid cid tx st).1 = false ↔
        ∀ r ∈ table, recordMatches pid cid r = false)) ∧
    (∀ (table : LogTable) (pid cid tx st : String),
      (update_submission table pid cid tx st).1 = false →
      (update_submission table pid cid tx st).2 = table) ∧
    (∀ (table : LogTable) (d : SubmissionPayload) (pid cid tx : String),
      validate_submission_data (some d) =
        (true, "", some ⟨some pid, some cid, some tx⟩) →
      (∀ r ∈ table, recordMatches pid cid r = false) →
      (submit_challenge table (some d)).1 =
        ⟨404, "error", "No matching challenge log found for playerId " ++ pid ++
          " and challengeId " ++ cid⟩ ∧
      (submit_challenge table (some d)).2 = table) ∧
    (∀ (table : LogTable) (pid cid tx st : String) (i : Nat),
      findLastMatchIdx pid cid table = some i →
      (update_submission_faulty table pid cid tx st 0).1 = false) := by
  refine ⟨fun table pid cid tx st => update_submission_false_iff table pid cid tx st,
    fun table pid cid tx st => update_submission_snd_of_false table pid cid tx st,
    ?_, ?_⟩
  · intro table d pid cid tx hval hnone
    have hfalse : (update_submission table pid cid tx "Submitted").1 = false :=
      (update_submission_false_iff table pid cid tx "Submitted").mpr hnone
    unfold submit_challenge
    rw [hval]
    dsimp only
    rw [if_neg (by simp [hfalse])]
    exact ⟨rfl, update_submission_snd_of_false table pid cid tx "Submitted" hfalse⟩
  · intro table pid cid tx st i h
    have hne : table.isEmpty = false := by
      cases table with
      | nil => simp [findLastMatchIdx] at h
      | cons a l => rfl
    unfold update_submission_faulty
    rw [if_neg (by simp [hne]), h]
    dsimp only
    rw [if_pos rfl]

/-- Witness for C6: submitting proof against a table with no matching row
yields the 404 response. -/
theorem update_submission_not_found_spec_witness :
    (submit_challenge ([⟨"t1", "p9", "n", "c9", "Done", ""⟩] : LogTable)
      (some ⟨some "p1", some "c1", some "done"⟩)).1 =
      ⟨404, "error",
        "No matching challenge log found for playerId p1 and challengeId c1"⟩ :=
  (update_submission_not_found_spec.2.2.1
    ([⟨"t1", "p9", "n", "c9", "Done", ""⟩] : LogTable)
    ⟨some "p1", some "c1", some "done"⟩ "p1" "c1" "done"
    (by decide) (by decide)).1

/-! ## Sanitization lemmas -/

theorem id_format_ne_empty (s : String) (h : (validate_id_format s).1 = true) :
    s ≠ "" := by
  intro h0
  subst h0
  exact absurd h (by decide)

theorem searchAny_append_of_isSome (m : List Char → Option Nat)
    (pre cs : List Char) (hne : cs ≠ []) (h : (m cs).isSome = true) :
    searchAny m (pre ++ cs) = true := by
  induction pre with
  | nil =>
    cases cs with
    | nil => exact absurd rfl hne
    | cons c rest => simp [searchAny, h]
  | cons p pre ih => simp [searchAny, ih]

theorem matchScript_marker (b : List Char) :
    matchScript ("<script>alert(1)</script>".data ++ b) = some 25 := rfl

theorem containsMalicious_marker (a b : String) :
    containsMalicious (a ++ "<script>alert(1)</script>" ++ b) = true := by
  unfold containsMalicious
  have hd : (a ++ "<script>alert(1)</script>" ++ b).data =
      a.data ++ ("<script>alert(1)</script>".data ++ b.data) := by
    rw [String.data_append, String.data_append, List.append_assoc]
  rw [hd]
  have h1 : searchAny matchScript
      (a.data ++ ("<script>alert(1)</script>".data ++ b.data)) = true := by
    refine searchAny_append_of_isSome matchScript a.data _
      (List.cons_ne_nil _ _) ?_
    rw [matchScript_marker b.data]
    rfl
  rw [h1]
  rfl

theorem validate_text_field_malicious (t fn : String) (ml : Nat) (hne : t ≠ "")
    (hlen : ¬ t.length > ml) (hmal : containsMalicious t = true) :
    validate_text_field t fn ml =
      (false, fn ++ " contains potentially malicious content") := by
  unfold validate_text_field
  rw [if_neg hne, if_neg hlen, if_pos hmal]

theorem validate_submission_data_text_branch (pid cid t : String)
    (hp : (validate_id_format pid).1 = true)
    (hc : (validate_id_format cid).1 = true) (ht : t ≠ "") :
    validate_submission_data (some ⟨some pid, some cid, some t⟩) =
      (if !(validate_text_field t "submissionText" 5000).1 then
        (false, (validate_text_field t "submissionText" 5000).2,
          some ⟨some pid, some cid, some t⟩)
       else
        (true, "", some ⟨some (sanitize_input pid), some (sanitize_input cid),
          some (sanitize_input t)⟩)) := by
  unfold validate_submission_data
  dsimp only
  rw [if_neg (id_format_ne_empty pid hp), if_neg (by simp [hp]),
    if_neg (id_format_ne_empty cid hc), if_neg (by simp [hc]), if_neg ht]

theorem head?_dropWhile_not {α : Type} (p : α → Bool) :
    ∀ (l : List α) (a : α), (l.dropWhile p).head? = some a → p a = false := by
  intro l
  induction l with
  | nil =>
    intro a h
    simp at h
  | cons x l ih =>
    intro a h
    rw [List.dropWhile_cons] at h
    cases hx : p x with
    | true =>
      rw [hx, if_pos rfl] at h
      exact ih a h
    | false =>
      rw [hx, if_neg (by simp)] at h
      simp only [List.head?_cons, Option.some.injEq] at h
      rw [← h]
      exact hx

theorem getLast?_dropWhile {α : Type} (p : α → Bool) :
    ∀ l : List α, l.dropWhile p ≠ [] →
      (l.dropWhile p).getLast? = l.getLast? := by
  intro l
  induction l with
  | nil => intro h; exact absurd rfl h
  | cons x l ih =>
    intro h
    rw [List.dropWhile_cons] at h ⊢
    cases hx : p x with
    | true =>
      rw [hx, if_pos rfl] at h
      rw [if_pos rfl, ih h]
      have hl : l ≠ [] := by
        intro h0
        rw [h0] at h
        exact h rfl
      cases l with
      | nil => exact absurd rfl hl
      | cons y l => rw [List.getLast?_cons_cons]
    | false =>
      rw [if_neg (by simp)]

/-- C4: every payload accepted by `validate_challenge_data` is mutated in
place so that each of the three fields is replaced by its `sanitize_input`:
the HTML-escaped value with every occurrence of the injection-marker patterns
(script tags, `javascript:`, inline event handlers, `expression(`, `eval(`,
case-insensitively) deleted by the `re.sub` pass and whitespace trimmed — so
content that already passed the rejection check is still run through the same
pattern-stripping. -/
theorem validate_challenge_data_sanitizes (d res : ChallengePayload)
    (h : validate_challenge_data (some d) = (true, "", some res)) :
    ∃ p n c, d.playerId = some p ∧ d.playerName = some n ∧
      d.challengeId = some c ∧
      res = ⟨some (sanitize_input p), some (sanitize_input n),
        some (sanitize_input c)⟩ := by
  obtain ⟨dp, dn, dc⟩ := d
  unfold validate_challenge_data at h
  cases dp with
  | none => simp at h
  | some p =>
    dsimp only at h
    by_cases hp0 : p = ""
    · rw [if_pos hp0] at h
      simp at h
    · rw [if_neg hp0] at h
      cases hp1 : (validate_id_format p).1 with
      | false =>
        rw [hp1] at h
        simp at h
      | true =>
        rw [hp1] at h
        rw [if_neg (by simp)] at h
        cases dn with
        | none => simp at h
        | some n =>
          dsimp only at h
          by_cases hn0 : n = ""
          · rw [if_pos hn0] at h
            simp at h
          · rw [if_neg hn0] at h
            cases hn1 : (validate_text_field n "playerName" 100).1 with
            | false =>
              rw [hn1] at h
              simp at h
            | true =>
              rw [hn1] at h
              rw [if_neg (by simp)] at h
              cases dc with
              | none => simp at h
              | some c =>
                dsimp only at h
                by_cases hc0 : c = ""
                · rw [if_pos hc0] at h
                  simp at h
                · rw [if_neg hc0] at h
                  cases hc1 : (validate_id_format c).1 with
                  | false =>
                    rw [hc1] at h
                    simp at h
                  | true =>
                    rw [hc1] at h
                    rw [if_neg (by simp)] at h
                    simp only [Prod.mk.injEq, Option.some.injEq] at h
                    exact ⟨p, n, c, rfl, rfl, rfl, h.2.2.symm⟩

/-- Witness for C4: an accepted payload's fields end up equal to their
`sanitize_input` (here `" Alice "` becomes `"Alice"`). -/
theorem validate_challenge_data_sanitizes_witness :
    (⟨some "p1", some "Alice", some "C01"⟩ : ChallengePayload) =
      ⟨some (sanitize_input "p1"), some (sanitize_input " Alice "),
        some (sanitize_input "C01")⟩ := by
  obtain ⟨p, n, c, hp, hn, hc, hres⟩ :=
    validate_challenge_data_sanitizes ⟨some "p1", some " Alice ", some "C01"⟩
      ⟨some "p1", some "Alice", some "C01"⟩ (by decide)
  obtain rfl : "p1" = p := Option.some.inj hp
  obtain rfl : " Alice " = n := Option.some.inj hn
  obtain rfl : "C01" = c := Option.some.inj hc
  exact hres

/-- C8: a submission payload with valid identifiers whose `submissionText`
contains `<script>alert(1)</script>` is always rejected (returning a failure,
never a sanitized success); within the 5000-character bound the rejection
comes from the malicious-pattern branch of the strict text-field validator,
with its "contains potentially malicious content" message.  `submissionText`
is never given the identifier-pattern check: any non-empty text within the
length bound and free of the malicious patterns is accepted, identifier-legal
or not. -/
theorem validate_submission_rejects_script :
    (∀ (d : SubmissionPayload) (pid cid a b : String),
      d = ⟨some pid, some cid, some (a ++ "<script>alert(1)</script>" ++ b)⟩ →
      (validate_id_format pid).1 = true →
      (validate_id_format cid).1 = true →
      (validate_submission_data (some d)).1 = false) ∧
    (∀ (d : SubmissionPayload) (pid cid a b : String),
      d = ⟨some pid, some cid, some (a ++ "<script>alert(1)</script>" ++ b)⟩ →
      (validate_id_format pid).1 = true →
      (validate_id_format cid).1 = true →
      (a ++ "<script>alert(1)</script>" ++ b).length ≤ 5000 →
      validate_submission_data (some d) =
        (false, "submissionText contains potentially malicious content",
          some d)) ∧
    (∀ pid cid t : String,
      (validate_id_format pid).1 = true →
      (validate_id_format cid).1 = true →
      t ≠ "" → t.length ≤ 5000 → containsMalicious t = false →
      (validate_submission_data (some ⟨some pid, some cid, some t⟩)).1 =
        true) := by
  refine ⟨?_, ?_, ?_⟩
  · intro d pid cid a b hd hp hc
    subst hd
    have htne : a ++ "<script>alert(1)</script>" ++ b ≠ "" := by
      intro h0
      have h1 : (a ++ "<script>alert(1)</script>" ++ b).length = 0 := by
        rw [h0]
        rfl
      rw [String.length_append, String.length_append] at h1
      have h2 : ("<script>alert(1)</script>" : String).length = 25 := rfl
      omega
    rw [validate_submission_data_text_branch pid cid _ hp hc htne]
    cases hv : (validate_text_field (a ++ "<script>alert(1)</script>" ++ b)
        "submissionText" 5000).1 with
    | false => rfl
    | true =>
      exfalso
      unfold validate_text_field at hv
      rw [if_neg htne] at hv
      by_cases hl : (a ++ "<script>alert(1)</script>" ++ b).length > 5000
      · rw [if_pos hl] at hv
        simp at hv
      · rw [if_neg hl, if_pos (containsMalicious_marker a b)] at hv
        simp at hv
  · intro d pid cid a b hd hp hc hlen
    subst hd
    have htne : a ++ "<script>alert(1)</script>" ++ b ≠ "" := by
      intro h0
      have h1 : (a ++ "<script>alert(1)</script>" ++ b).length = 0 := by
        rw [h0]
        rfl
      rw [String.length_append, String.length_append] at h1
      have h2 : ("<script>alert(1)</script>" : String).length = 25 := rfl
      omega
    rw [validate_submission_data_text_branch pid cid _ hp hc htne,
      validate_text_field_malicious _ "submissionText" 5000 htne
        (by omega) (containsMalicious_marker a b)]
    rfl
  · intro pid cid t hp hc ht hlen hmal
    rw [validate_submission_data_text_branch pid cid t hp hc ht]
    have hv : (validate_text_field t "submissionText" 5000).1 = true := by
      unfold validate_text_field
      rw [if_neg ht, if_neg (by omega), if_neg (by simp [hmal])]
    rw [hv]
    rfl

/-- Witness for C8: the concrete `<script>alert(1)</script>` payload is
rejected with the malicious-content message; a free-text submission that
would fail the identifier pattern (`"hello world!"`) is accepted. -/
theorem validate_submission_rejects_script_witness :
    validate_submission_data (some ⟨some "p1", some "c1",
        some ("" ++ "<script>alert(1)</script>" ++ "")⟩) =
      (false, "submissionText contains potentially malicious content",
        some ⟨some "p1", some "c1",
          some ("" ++ "<script>alert(1)</script>" ++ "")⟩) ∧
    (validate_submission_data (some ⟨some "p1", some "c1",
        some "hello world!"⟩)).1 = true :=
  ⟨validate_submission_rejects_script.2.1 _ "p1" "c1" "" "" rfl (by decide)
      (by decide) (by decide),
    validate_submission_rejects_script.2.2 "p1" "c1" "hello world!" (by decide)
      (by decide) (by decide) (by decide) (by decide)⟩

/-- C9: a field consisting only of whitespace (here `playerName = " "`)
passes the non-empty and format checks of `validate_challenge_data`, and the
in-place sanitization then trims it to the empty string; in general every
`sanitize_input` result is whitespace-trimmed: its first and last characters
are never whitespace. -/
theorem whitespace_only_field_trimmed :
    validate_challenge_data (some ⟨some "p1", some " ", some "c1"⟩) =
      (true, "", some ⟨some "p1", some "", some "c1"⟩) ∧
    (∀ (s : String) (c : Char),
      ((sanitize_input s).data.head? = some c → isPySpace c = false) ∧
      ((sanitize_input s).data.getLast? = some c → isPySpace c = false)) := by
  refine ⟨by decide, ?_⟩
  intro s c
  have hdata : (sanitize_input s).data =
      pyStrip (stripMalicious (escapeList s.data)) := rfl
  constructor
  · intro h
    rw [hdata] at h
    unfold pyStrip at h
    rw [List.head?_reverse] at h
    by_cases hnil :
        ((stripMalicious (escapeList s.data)).dropWhile
          isPySpace).reverse.dropWhile isPySpace = []
    · rw [hnil] at h
      simp at h
    · rw [getLast?_dropWhile isPySpace _ hnil, List.getLast?_reverse] at h
      exact head?_dropWhile_not isPySpace _ c h
  · intro h
    rw [hdata] at h
    unfold pyStrip at h
    rw [List.getLast?_reverse] at h
    exact head?_dropWhile_not isPySpace _ c h

/-- Witness for C9: `sanitize_input " a"` starts with the non-whitespace
character `a`. -/
theorem whitespace_only_field_trimmed_witness : isPySpace 'a' = false :=
  (whitespace_only_field_trimmed.2 " a" 'a').1 (by decide)

end GoReal
